import Mathlib

/-
Verification development for the Document_Portal repository: a shallow
embedding of the session-scoped RAG pipeline (session-id generation, index
persistence paths, history-aware query rewriting, answer sentinels, the
self-correcting structured extractor, document comparison labeling, PDF text
extraction, index loading, chunking, and upload saving), with theorems
settling the specification claims against it.

Conventions: Python strings are Lean String; fallible code returns
Except PortalError; filesystem state is a map from path strings to stored
values; the generative and embedding backends are abstract functions.
-/

/-- Error values the repository can surface.  The source defines exactly one
exception class, DocumentPortalException (exception/custom_exception.py);
the FastAPI layer (api/main.py) converts every exception into
HTTPException(status_code=500, detail=str(e)).  The indexNotFound
constructor is modelled from the spec: the spec's error taxonomy names an
IndexNotFoundError kind, but no such class exists anywhere in the source;
it is included so that theorems can state that the code never produces it. -/
inductive PortalError where
  | documentPortal (msg : String)
  | httpError (status : Nat) (detail : String)
  | indexNotFound (path : String)
  deriving DecidableEq, Repr

/-- A wall-clock timestamp as the components that strftime formats. -/
structure DateTime where
  year : Nat
  month : Nat
  day : Nat
  hour : Nat
  minute : Nat
  second : Nat
  deriving DecidableEq, Repr

/-- Two-digit zero-padded decimal field, as strftime renders %m, %d, %H, %M,
%S (all of whose real values are below 100, so truncation never occurs). -/
def pad2 (n : Nat) : String :=
  String.mk [Nat.digitChar (n / 10 % 10), Nat.digitChar (n % 10)]

/-- Four-digit zero-padded decimal field, as strftime renders %Y for real
calendar years. -/
def pad4 (n : Nat) : String :=
  String.mk [Nat.digitChar (n / 1000 % 10), Nat.digitChar (n / 100 % 10),
             Nat.digitChar (n / 10 % 10), Nat.digitChar (n % 10)]

/-- strftime("%Y%m%d_%H%M%S") over the given timestamp components. -/
def timestampFmt (d : DateTime) : String :=
  pad4 d.year ++ pad2 d.month ++ pad2 d.day ++ "_" ++
  pad2 d.hour ++ pad2 d.minute ++ pad2 d.second

/-- Session id generated by DocumentIngestor.__init__
(src/multi_document_chat/data_ingestion.py:43-46) when session_id is None:
f-string "session_" + datetime.now(timezone.utc).strftime("%Y%m%d_%H%M%S")
+ "_" + uuid.uuid4().hex[:8].  utcNow is the UTC wall clock at the call;
hex8 stands for uuid.uuid4().hex[:8], eight lowercase hex characters. -/
def multiDocSessionId (utcNow : DateTime) (hex8 : String) : String :=
  "session_" ++ timestampFmt utcNow ++ "_" ++ hex8

/-- Session id generated by DocumentHandler.__init__
(src/document_analyzer/data_ingestion.py:29-32): same shape as the
multi-document one, from datetime.utcnow() and uuid.uuid4().hex[:8]. -/
def analyzerSessionId (utcNow : DateTime) (hex8 : String) : String :=
  "session_" ++ timestampFmt utcNow ++ "_" ++ hex8

/-- Session id generated by SingleDocIngestor.ingest_files
(src/single_document_chat/data_ingestion.py:74): f-string "session_" +
datetime.now(timezone.utc).strftime("%Y%m%d_%H%M%S").  Note: no random
suffix of any kind is appended in this flow. -/
def singleDocSessionId (utcNow : DateTime) : String :=
  "session_" ++ timestampFmt utcNow

/-- Session id generated by _session_id (utils/file_io.py:21-33):
prefix + "_" + datetime.now(ZoneInfo("Asia/Kolkata")).strftime("%Y%m%d_%H%M%S")
+ "_" + uuid.uuid4().hex[:8].  istNow is the Asia/Kolkata (UTC+5:30) wall
clock at the call, not the UTC one. -/
def fileIoSessionId (pre : String) (istNow : DateTime) (hex8 : String) : String :=
  pre ++ "_" ++ timestampFmt istNow ++ "_" ++ hex8

/-- Lowercase hexadecimal digit, the alphabet of uuid4().hex. -/
def isHexDigit (c : Char) : Bool :=
  decide ('0' ≤ c ∧ c ≤ '9') || decide ('a' ≤ c ∧ c ≤ 'f')

/-- The session-id shape the spec asserts for the given UTC instant:
"session_" + UTC %Y%m%d_%H%M%S timestamp + "_" + 8 random hex characters. -/
def hasSessionIdForm (utcNow : DateTime) (s : String) : Prop :=
  ∃ hex : String, hex.length = 8 ∧ hex.data.all isHexDigit = true ∧
    s = "session_" ++ timestampFmt utcNow ++ "_" ++ hex

/-- POSIX path join, as pathlib's / and os.path.join produce it here. -/
def joinPath (dir leaf : String) : String := dir ++ "/" ++ leaf

/-- Directory a multi-document chat session persists its FAISS index under:
self.session_faiss_dir = self.faiss_dir / self.session_id, then
vectorstore.save_local(str(self.session_faiss_dir))
(src/multi_document_chat/data_ingestion.py:49,159). -/
def multiDocIndexPath (faissDir sessionId : String) : String :=
  joinPath faissDir sessionId

/-- Directory a single-document chat ingestion persists its FAISS index
under: vectorstore.save_local(str(self.faiss_dir))
(src/single_document_chat/data_ingestion.py:138) - the shared faiss_dir
root itself; the session id computed earlier in ingest_files does not
appear in this path. -/
def singleDocIndexPath (faissDir : String) : String := faissDir

/-- FAISS.save_local at a path: overwrites whatever index was stored there
(no merge semantics).  The filesystem is a map from directory paths to the
stored index, here identified by a numeric tag. -/
def persistIndex (fs : String → Option Nat) (path : String) (idx : Nat) :
    String → Option Nat :=
  fun p => if p = path then some idx else fs p

/-- Modelled from the spec: the contextualize/question-rewrite prompt.
The source looks it up as PROMPT_REGISTRY[PromptType.CONTEXTUALIZE_QUESTION.value]
(src/multi_document_chat/retrieval.py:35-37), but the packaged
prompt/prompt_library.py registers only the analysis and comparison prompts
and models/models.py lacks PromptType, so the prompt text itself is missing
from src/; per the spec it instructs the backend to resolve the question
against the history and return only the rewritten question. -/
def contextualizePrompt (question : String) (history : List String) : String :=
  "Given the chat history and the latest user question, formulate a " ++
  "standalone question. Return only the rewritten question.\nChat history:\n" ++
  String.intercalate "\n" history ++ "\nQuestion:\n" ++ question

/-- The question_rewriter sub-chain of ConversationalRAG._build_lcel_chain
(src/multi_document_chat/retrieval.py:104-112):
itemgetter inputs | contextualize_prompt | llm | StrOutputParser().
The chain is unconditional: there is no branch on chat_history being empty.
Returns the rewritten question together with the list of prompts actually
sent to the generative backend during the rewrite. -/
def runQuestionRewriter (llm : String → String) (question : String)
    (history : List String) : String × List String :=
  (llm (contextualizePrompt question history),
   [contextualizePrompt question history])

/-- ConversationalRAG.invoke for multi-document chat
(src/multi_document_chat/retrieval.py:160-181): the LCEL chain yields a
string; "if not response: return \x22No Answer\x22" covers exactly the empty
string, otherwise the response is returned as is. -/
def multiDocInvoke (response : String) : String :=
  if response = "" then "No Answer" else response

/-- ConversationalRAG.invoke for single-document chat
(src/single_document_chat/retrieval.py:156-182): the chain yields a dict;
answer = response.get("answer", "No Answer") substitutes the sentinel only
when the key is absent, and the subsequent "if not answer" branch only logs
a warning - the falsy answer itself is still returned.  answerField is the
value under the "answer" key when present. -/
def singleDocInvoke (answerField : Option String) : String :=
  answerField.getD "No Answer"

/-- Modelled from the spec: retry bound of the self-correcting structured
extractor.  Both DocumentComparatorLLM.__init__
(src/document_compare/document_comparator.py:34-37) and
DocumentAnalyzer.__init__ (src/document_analyzer/data_analysis.py:25-28)
build OutputFixingParser.from_llm(llm, parser), whose repair loop is
library code outside src/; from_llm leaves max_retries at its default of
one repair re-invocation per call. -/
def maxRepairRetries : Nat := 1

/-- Modelled from the spec: the Generate/Validate/Repair state machine of
the structured extractor (spec 4.7).  backend n is the generative reply to
the n-th call of this extraction (call 0 is the original generation, later
calls are repair re-invocations carrying the malformed output plus the
schema); validate is schema validation, returning the parsed record on
success.  Returns the outcome together with the total number of backend
calls made; fuel is the number of repair re-invocations still allowed. -/
def attemptRepairs {R : Type} (validate : String → Option R)
    (backend : Nat → String) : Nat → Nat → Except String R × Nat
  | i, fuel =>
    match validate (backend i) with
    | some r => (Except.ok r, i + 1)
    | none =>
      match fuel with
      | 0 => (Except.error (backend i), i + 1)
      | f + 1 => attemptRepairs validate backend (i + 1) f

/-- One structured-extraction call: a first generation followed by at most
maxRepairRetries repair re-invocations; on final failure the last raw
output is surfaced.  Second component: total backend calls. -/
def extractWithRepair {R : Type} (validate : String → Option R)
    (backend : Nat → String) : Except String R × Nat :=
  attemptRepairs validate backend 0 maxRepairRetries

/-- Index of the last '/' counted via the reversed character list: the
basename (pathlib's final path component) is the run of characters after
the last '/'.  Trailing-separator normalization of pathlib is not needed by
the filenames considered here. -/
def lastComponentData (s : List Char) : List Char :=
  match s.reverse.findIdx? (fun c => c = '/') with
  | none => s
  | some j => s.drop (s.length - j)

/-- pathlib suffix of a basename: with i the index of the last '.', the
suffix is the slice from i when 0 < i < length - 1, else empty (covers
no-dot names, dotfiles and names ending in a dot exactly as pathlib's
Path.suffix does). -/
def suffixData (base : List Char) : List Char :=
  match base.reverse.findIdx? (fun c => c = '.') with
  | none => []
  | some j =>
    let i := base.length - 1 - j
    if 0 < i ∧ i + 1 < base.length then base.drop i else []

/-- Path(name).suffix. -/
def pathSuffix (name : String) : String :=
  String.mk (suffixData (lastComponentData name.data))

/-- Path(name).stem: the basename with its suffix removed. -/
def pathStem (name : String) : String :=
  String.mk ((lastComponentData name.data).take
    ((lastComponentData name.data).length
      - (suffixData (lastComponentData name.data)).length))

/-- str.lower() restricted to per-character ASCII lowering, which agrees
with Python on every character these flows feed it (filename extensions
and the already-sanitized ASCII alphabet). -/
def lowerStr (s : String) : String := String.mk (s.data.map Char.toLower)

/-- A PDF source file as the extraction collaborator exposes it: its
filename, whether it is encrypted, and its page texts in physical order
(page.get_text() per page). -/
structure Pdf where
  name : String
  encrypted : Bool
  pages : List String
  deriving DecidableEq, Repr

/-- Page blocks built by DocumentIngestion.read_pdf
(src/document_compare/data_ingestion.py:115-126): pages whose stripped
text is nonempty, each rendered as "\n-- Page N --\n" + text with N the
1-based physical page number. -/
def readPdfPages (d : Pdf) : List String :=
  (d.pages.enum.filter (fun p => ¬ p.2.trim = "")).map
    (fun p => "\n-- Page " ++ toString (p.1 + 1) ++ " --\n" ++ p.2)

/-- The combined text DocumentIngestion.read_pdf returns for a readable
PDF: "\n".join of the page blocks. -/
def readPdfText (d : Pdf) : String :=
  String.intercalate "\n" (readPdfPages d)

/-- DocumentIngestion.read_pdf (src/document_compare/data_ingestion.py:96-141):
if doc.is_encrypted it raises ValueError("Encrypted PDF is not supported"),
which the blanket except wraps into
DocumentPortalException("Error reading PDF file"); otherwise it returns
the joined page blocks. -/
def compareReadPdf (d : Pdf) : Except PortalError String :=
  if d.encrypted then
    Except.error (PortalError.documentPortal "Error reading PDF file")
  else
    Except.ok (readPdfText d)

/-- DocumentHandler.read_pdf (src/document_analyzer/data_ingestion.py:77-99):
iterates every page with enumerate(doc, start=1) and joins
"\n-- Page N --\n" + page.get_text() blocks.  There is no is_encrypted
check and no empty-page filter in this path. -/
def analyzerReadPdf (d : Pdf) : Except PortalError String :=
  Except.ok (String.intercalate "\n"
    (d.pages.enum.map (fun p => "\n-- Page " ++ toString (p.1 + 1) ++ " --\n" ++ p.2)))

/-- Lexicographic (code-point) strict order on the character lists of two
strings, as Python's < on str compares filenames. -/
def charListLtb : List Char → List Char → Bool
  | [], [] => false
  | [], _ :: _ => true
  | _ :: _, [] => false
  | a :: as, b :: bs =>
    if a < b then true else if b < a then false else charListLtb as bs

/-- Python's s1 < s2 on the two filename strings. -/
def strLtb (a b : String) : Bool := charListLtb a.data b.data

/-- Stable insertion of a file into an already-sorted list, by filename:
the element keeps walking right only past strictly smaller names, so equal
names preserve their original relative order as Python's stable sorted()
does. -/
def insertByName (f : Pdf) : List Pdf → List Pdf
  | [] => [f]
  | g :: gs =>
    if strLtb g.name f.name then g :: insertByName f gs else f :: g :: gs

/-- sorted(...) over the files found in the source directory, ordered by
filename (same-directory Path objects compare by their name string). -/
def sortByName : List Pdf → List Pdf
  | [] => []
  | f :: fs => insertByName f (sortByName fs)

/-- The f.suffix.lower() == ".pdf" filter of
DocumentIngestion.combine_documents (src/document_compare/data_ingestion.py:165-168). -/
def isPdfFile (f : Pdf) : Bool := lowerStr (pathSuffix f.name) == ".pdf"

/-- The enumerate loop of combine_documents
(src/document_compare/data_ingestion.py:179-186): index 0 is labeled
"REFERENCE DOCUMENT", every later index "ACTUAL DOCUMENT"; each part is
"===== ROLE (name) =====\n" + read_pdf text + "\n".  A read_pdf failure
aborts the loop with the error. -/
def combineParts : Nat → List Pdf → Except PortalError (List String)
  | _, [] => Except.ok []
  | i, d :: ds =>
    match compareReadPdf d with
    | Except.error e => Except.error e
    | Except.ok content =>
      match combineParts (i + 1) ds with
      | Except.error e => Except.error e
      | Except.ok rest =>
        Except.ok (("===== "
          ++ (if i = 0 then "REFERENCE DOCUMENT" else "ACTUAL DOCUMENT")
          ++ " (" ++ d.name ++ ") =====\n" ++ content ++ "\n") :: rest)

/-- DocumentIngestion.combine_documents
(src/document_compare/data_ingestion.py:143-202) over the files present in
the source directory (listed in arbitrary directory order): keep .pdf
files, sort by filename, require at least two, then join the role-labeled
parts with "\n\n".  Any failure (too few PDFs, unreadable PDF) is wrapped
by the blanket except into
DocumentPortalException("Error combining documents"). -/
def combine_documents (files : List Pdf) : Except PortalError String :=
  let pdfs := sortByName (files.filter isPdfFile)
  if pdfs.length < 2 then
    Except.error (PortalError.documentPortal "Error combining documents")
  else
    match combineParts 0 pdfs with
    | Except.error _ =>
      Except.error (PortalError.documentPortal "Error combining documents")
    | Except.ok parts => Except.ok (String.intercalate "\n\n" parts)

/-- The combined text the comparison prompt receives when file a is the
reference and file b the actual document. -/
def referenceActualLayout (a b : Pdf) : String :=
  "===== REFERENCE DOCUMENT (" ++ a.name ++ ") =====\n" ++ readPdfText a
    ++ "\n" ++ "\n\n"
    ++ "===== ACTUAL DOCUMENT (" ++ b.name ++ ") =====\n" ++ readPdfText b
    ++ "\n"

/-- ConversationalRAG.load_retriever_from_faiss
(src/multi_document_chat/retrieval.py:197-236): when os.path.isdir fails
it raises FileNotFoundError, which the blanket except wraps into
DocumentPortalException("Failed to load retriever from FAISS"); on success
the retriever over the index at that path is installed (represented here
by the path it serves).  isDir is the state of the filesystem. -/
def load_retriever_from_faiss (isDir : String → Bool) (indexPath : String) :
    Except PortalError String :=
  if isDir indexPath then Except.ok indexPath
  else Except.error (PortalError.documentPortal "Failed to load retriever from FAISS")

/-- The /chat/query route (api/main.py:161-198) up to index loading: a
missing session id in session-dirs mode, or a missing index directory,
raises ValueError, and the route's blanket except converts any exception
into HTTPException(status_code=500, detail=str(e)).  On success the route
proceeds with a RAG over the resolved index directory (represented by that
directory). -/
def chat_query (isDir : String → Bool) (sessionId : Option String)
    (useSessionDirs : Bool) : Except PortalError String :=
  match useSessionDirs, sessionId with
  | true, none =>
    Except.error (PortalError.httpError 500
      "session_id must be provided if use_session__dirs is True")
  | _, _ =>
    let indexDir :=
      if useSessionDirs then joinPath "faiss_index" (sessionId.getD "")
      else "faiss_index"
    if isDir indexDir then Except.ok indexDir
    else
      Except.error (PortalError.httpError 500
        ("FAISS index directory " ++ indexDir ++ " does not exist"))

/-- Modelled from the spec: the Chunker's split (spec 4.2, 8).  The
repository delegates splitting to langchain's RecursiveCharacterTextSplitter
(configured with chunk_size=1000, chunk_overlap=300 in
src/multi_document_chat/data_ingestion.py:139-142 and
src/single_document_chat/data_ingestion.py:119-122) whose algorithm is
library code outside src/; modelled as the spec states it: fixed-size
chunks of at most chunkSize characters in which each chunk after the first
repeats exactly chunkOverlap trailing characters of its predecessor.
Emits the chunk starting at start and recurses from start +
(chunkSize - chunkOverlap) until the text is exhausted. -/
def splitFrom (chunkSize chunkOverlap : Nat) (h : chunkOverlap < chunkSize)
    (text : List Char) (start : Nat) : List (List Char) :=
  if hlt : start + chunkSize < text.length then
    ((text.drop start).take chunkSize)
      :: splitFrom chunkSize chunkOverlap h text
          (start + (chunkSize - chunkOverlap))
  else
    [(text.drop start).take chunkSize]
termination_by text.length - start
decreasing_by omega

/-- split of the whole text. -/
def split (chunkSize chunkOverlap : Nat) (h : chunkOverlap < chunkSize)
    (text : List Char) : List (List Char) :=
  splitFrom chunkSize chunkOverlap h text 0

/-- Overlap-trimmed concatenation: the first chunk whole, every later
chunk with its leading chunkOverlap characters (the repeated tail of its
predecessor) removed. -/
def overlapTrimConcat (chunkOverlap : Nat) : List (List Char) → List Char
  | [] => []
  | c :: cs => c ++ (cs.map (List.drop chunkOverlap)).flatten

/-- The character class kept by re.sub(r"[^a-zA-Z0-9_\-]", "_", stem) in
save_uploaded_files (utils/file_io.py:51-55). -/
def isSafeChar (c : Char) : Bool :=
  decide ('a' ≤ c ∧ c ≤ 'z') || decide ('A' ≤ c ∧ c ≤ 'Z') ||
  decide ('0' ≤ c ∧ c ≤ '9') || decide (c = '_') || decide (c = '-')

/-- re.sub(r"[^a-zA-Z0-9_\-]", "_", stem).lower(): every character outside
the safe class becomes '_', then the result (all ASCII) is lowercased. -/
def sanitizeStem (stem : String) : String :=
  String.mk (stem.data.map (fun c => if isSafeChar c then c.toLower else '_'))

/-- SUPPORTED_EXTENSIONS of utils/file_io.py:13. -/
def supportedExtensions : List String := [".pdf", ".docx", ".txt"]

/-- The per-file body of save_uploaded_files (utils/file_io.py:42-66):
ext = Path(name).suffix.lower(); unsupported extensions are skipped
(None); otherwise the stored filename is the sanitized lowercased stem +
"_" + uuid.uuid4().hex[:8] (hex8 here) + ext. -/
def savedFileName (origName : String) (hex8 : String) : Option String :=
  let ext := lowerStr (pathSuffix origName)
  if supportedExtensions.contains ext then
    some (sanitizeStem (pathStem origName) ++ "_" ++ hex8 ++ ext)
  else none

/-- save_uploaded_files (utils/file_io.py:36-73): each uploaded file is
paired with the fresh uuid hex its iteration draws; the saved paths are
target_dir / stored-filename for exactly the supported files, in order. -/
def save_uploaded_files (targetDir : String)
    (files : List (String × String)) : List String :=
  files.filterMap (fun uf => (savedFileName uf.1 uf.2).map (joinPath targetDir))

/-- C1 counterexample: the claim fails for the single-document chat flow.
Session A ingests (persisting its index, tagged 1, at the single-doc index
path under the shared faiss root); then session B ingests (tag 2).  B's
build is persisted at the very same path, so A's persisted index is
replaced rather than left unchanged: the single-doc persist path does not
mention the session id at all. -/
theorem singleDoc_sharedIndex_overwrite_cex :
    (persistIndex (persistIndex (fun _ => none) (singleDocIndexPath "faiss_index") 1)
        (singleDocIndexPath "faiss_index") 2) (singleDocIndexPath "faiss_index")
      = some 2
    ∧ (persistIndex (fun _ => none) (singleDocIndexPath "faiss_index") 1)
        (singleDocIndexPath "faiss_index") = some 1
    ∧ (persistIndex (persistIndex (fun _ => none) (singleDocIndexPath "faiss_index") 1)
        (singleDocIndexPath "faiss_index") 2) (singleDocIndexPath "faiss_index")
      ≠ (persistIndex (fun _ => none) (singleDocIndexPath "faiss_index") 1)
        (singleDocIndexPath "faiss_index") := by
  refine ⟨rfl, rfl, ?_⟩
  decide

/-- C1 amended: only the multi-document chat flow persists indexes under a
session-scoped path (faiss_dir/session_id), so a multi-doc build leaves
every other session's persisted index untouched; the single-document chat
flow persists every build at the shared faiss_dir root, so each single-doc
build overwrites whatever index any earlier session persisted there. -/
theorem indexPersistPath_scoping :
    (∀ (faissDir s s' : String) (fs : String → Option Nat) (i : Nat),
      s ≠ s' →
      persistIndex fs (multiDocIndexPath faissDir s) i (multiDocIndexPath faissDir s')
        = fs (multiDocIndexPath faissDir s'))
    ∧ (∀ (faissDir : String) (fs : String → Option Nat) (i : Nat),
      persistIndex fs (singleDocIndexPath faissDir) i (singleDocIndexPath faissDir)
        = some i) := by
  constructor
  · intro faissDir s s' fs i hss
    have hne : multiDocIndexPath faissDir s' ≠ multiDocIndexPath faissDir s := by
      intro heq
      apply hss
      have hdata := congrArg String.data heq
      simp only [multiDocIndexPath, joinPath, String.data_append] at hdata
      exact (String.ext (List.append_cancel_left hdata)).symm
    simp [persistIndex, hne]
  · intro faissDir fs i
    simp [persistIndex]

/-- C1 amended witness at concrete sessions sA and sB. -/
theorem indexPersistPath_scoping_w :
    persistIndex (fun _ => none) (multiDocIndexPath "faiss_index" "sA") 1
      (multiDocIndexPath "faiss_index" "sB") = none
    ∧ persistIndex (fun _ => none) (singleDocIndexPath "faiss_index") 1
      (singleDocIndexPath "faiss_index") = some 1 :=
  ⟨indexPersistPath_scoping.1 "faiss_index" "sA" "sB" (fun _ => none) 1 (by decide),
   indexPersistPath_scoping.2 "faiss_index" (fun _ => none) 1⟩

/-- C2 counterexample: with an empty history the multi-document rewrite
sub-chain still pipes the contextualize prompt through the generative
backend, so rewrite(q, []) is the backend's completion, not q: a backend
returning the empty string witnesses rewrite("what changed", []) differing
from "what changed". -/
theorem rewrite_emptyHistory_cex :
    (runQuestionRewriter (fun _ => "") "what changed" []).1 ≠ "what changed" := by
  decide

/-- C2 amended: in the multi-document LCEL chain the rewrite step always
invokes the generative backend exactly once, even when the history is
empty, and the rewritten question is whatever the backend returns for the
contextualize prompt (equal to the original question only if the backend
chooses to return it). -/
theorem rewriter_always_calls_backend (llm : String → String) (q : String) :
    (runQuestionRewriter llm q []).2.length = 1
    ∧ (runQuestionRewriter llm q []).1 = llm (contextualizePrompt q []) :=
  ⟨rfl, rfl⟩

/-- C3 counterexample: in the single-document chat flow an empty answer
field is returned as the empty string, not as the "No Answer" sentinel:
response.get("answer", "No Answer") only substitutes when the key is
absent, and the falsy-answer branch merely logs. -/
theorem singleDoc_emptyAnswer_cex :
    singleDocInvoke (some "") ≠ "No Answer" := by
  decide

/-- C3 amended: the multi-document invoke does return the "No Answer"
sentinel whenever the chain output is empty and passes every non-empty
output through; the single-document invoke returns the sentinel only when
the response has no "answer" key, and returns the (possibly empty) field
value whenever the key is present. -/
theorem noAnswer_sentinel_behavior :
    multiDocInvoke "" = "No Answer"
    ∧ (∀ s : String, s ≠ "" → multiDocInvoke s = s)
    ∧ singleDocInvoke none = "No Answer"
    ∧ (∀ s : String, singleDocInvoke (some s) = s) := by
  refine ⟨rfl, ?_, rfl, fun s => rfl⟩
  intro s hs
  simp [multiDocInvoke, hs]

/-- C3 amended witness: a non-empty multi-document output passes through. -/
theorem noAnswer_sentinel_behavior_w :
    multiDocInvoke "Paris" = "Paris" :=
  noAnswer_sentinel_behavior.2.1 "Paris" (by decide)

/-- C4: one structured-extraction call whose first generation fails schema
validation and whose single repair re-invocation validates returns the
repaired record after exactly two backend calls, and no extraction call
ever makes more than 1 + maxRepairRetries = 2 backend calls: the repair
step runs at most once, never in an unbounded loop. -/
theorem repair_bounded_retry {R : Type} (validate : String → Option R)
    (backend : Nat → String) (r : R)
    (h0 : validate (backend 0) = none) (h1 : validate (backend 1) = some r) :
    extractWithRepair validate backend = (Except.ok r, 2)
    ∧ ∀ (validate2 : String → Option R) (backend2 : Nat → String),
        (extractWithRepair validate2 backend2).2 ≤ 1 + maxRepairRetries := by
  constructor
  · simp [extractWithRepair, maxRepairRetries, attemptRepairs, h0, h1]
  · intro validate2 backend2
    simp only [extractWithRepair, maxRepairRetries, attemptRepairs]
    cases validate2 (backend2 0) <;> simp [attemptRepairs] <;>
      cases validate2 (backend2 1) <;> simp

/-- C4 witness: a backend whose call 0 is malformed ("not json") and whose
call 1 is the valid record "fixed", with validation accepting exactly
"fixed". -/
theorem repair_bounded_retry_w :
    extractWithRepair (fun s => if s = "fixed" then some 42 else none)
        (fun n => if n = 0 then "not json" else "fixed")
      = (Except.ok 42, 2) :=
  (repair_bounded_retry (fun s => if s = "fixed" then some 42 else none)
    (fun n => if n = 0 then "not json" else "fixed") 42 (by decide) (by decide)).1

/-- C7 counterexample: the session id the single-document chat flow
generates at the concrete UTC instant 2026-01-15 09:30:00 is
"session_20260115_093000", which does not have the claimed
session_<UTC timestamp>_<8 random hex> form: it is 23 characters long
while any id of that form for this instant is 32 characters long - the
flow appends no random suffix at all. -/
theorem singleDoc_sessionId_form_cex :
    ¬ hasSessionIdForm (DateTime.mk 2026 1 15 9 30 0)
      (singleDocSessionId (DateTime.mk 2026 1 15 9 30 0)) := by
  rintro ⟨hex, hlen, -, heq⟩
  have hL := congrArg String.length heq
  have h1 : (singleDocSessionId (DateTime.mk 2026 1 15 9 30 0)).length = 23 := by
    decide
  have h3 : (timestampFmt (DateTime.mk 2026 1 15 9 30 0)).length = 15 := by decide
  have hs8 : ("session_" : String).length = 8 := by decide
  have hu1 : ("_" : String).length = 1 := by decide
  have h2 : ("session_" ++ timestampFmt (DateTime.mk 2026 1 15 9 30 0) ++ "_"
      ++ hex).length = 24 + hex.length := by
    simp only [String.length_append, h3, hs8, hu1]
  rw [h1, h2, hlen] at hL
  omega

/-- C7 amended: the multi-document chat and document-analysis flows do
generate ids of the claimed form session_<UTC %Y%m%d_%H%M%S>_<8 hex>; the
single-document chat flow generates session_<UTC %Y%m%d_%H%M%S> with no
random suffix; the utils.file_io generator appends the 8-hex suffix but
formats the Asia/Kolkata wall clock rather than the UTC one. -/
theorem sessionId_generation_forms :
    (∀ (d : DateTime) (hex8 : String), hex8.length = 8 →
      hex8.data.all isHexDigit = true → hasSessionIdForm d (multiDocSessionId d hex8))
    ∧ (∀ (d : DateTime) (hex8 : String), hex8.length = 8 →
      hex8.data.all isHexDigit = true → hasSessionIdForm d (analyzerSessionId d hex8))
    ∧ (∀ d : DateTime, singleDocSessionId d = "session_" ++ timestampFmt d)
    ∧ (∀ (istNow : DateTime) (hex8 : String),
      fileIoSessionId "session" istNow hex8
        = "session" ++ "_" ++ timestampFmt istNow ++ "_" ++ hex8) := by
  refine ⟨?_, ?_, fun d => rfl, fun istNow hex8 => rfl⟩
  · intro d hex8 h1 h2
    exact ⟨hex8, h1, h2, rfl⟩
  · intro d hex8 h1 h2
    exact ⟨hex8, h1, h2, rfl⟩

/-- C7 amended witness at a concrete instant and uuid slice. -/
theorem sessionId_generation_forms_w :
    hasSessionIdForm (DateTime.mk 2026 1 15 9 30 0)
      (multiDocSessionId (DateTime.mk 2026 1 15 9 30 0) "ab12cd34") :=
  sessionId_generation_forms.1 (DateTime.mk 2026 1 15 9 30 0) "ab12cd34"
    (by decide) (by decide)

/-- C6 counterexample: on a filesystem with no index directory at all,
querying chat for session "s1" fails with the generic HTTP 500 error
(detail the stringified ValueError), not with any IndexNotFoundError
taxonomy kind - the PortalError.indexNotFound constructor is never
produced by the embedded code. -/
theorem missing_index_generic_cex :
    chat_query (fun _ => false) (some "s1") true
      = Except.error (PortalError.httpError 500
          "FAISS index directory faiss_index/s1 does not exist")
    ∧ chat_query (fun _ => false) (some "s1") true
      ≠ Except.error (PortalError.indexNotFound "faiss_index/s1") := by
  refine ⟨rfl, ?_⟩
  intro h
  exact absurd (Except.error.inj h) (by decide)

/-- C6 amended: a missing index directory does make chat fail rather than
proceed, but through the repository's generic error channels: the loader
raises DocumentPortalException("Failed to load retriever from FAISS")
(wrapping FileNotFoundError), and the /chat/query route surfaces a generic
HTTP 500; no IndexNotFoundError or IndexError taxonomy kind exists in the
source. -/
theorem missing_index_failure_modes (isDir : String → Bool) (sid : String)
    (h : ∀ q, isDir q = false) :
    load_retriever_from_faiss isDir (joinPath "faiss_index" sid)
      = Except.error (PortalError.documentPortal "Failed to load retriever from FAISS")
    ∧ chat_query isDir (some sid) true
      = Except.error (PortalError.httpError 500
          ("FAISS index directory " ++ joinPath "faiss_index" sid ++ " does not exist")) := by
  constructor
  · simp [load_retriever_from_faiss, h]
  · simp [chat_query, h]

/-- C6 amended witness on the empty filesystem and session "s1". -/
theorem missing_index_failure_modes_w :
    load_retriever_from_faiss (fun _ => false) (joinPath "faiss_index" "s1")
      = Except.error (PortalError.documentPortal "Failed to load retriever from FAISS")
    ∧ chat_query (fun _ => false) (some "s1") true
      = Except.error (PortalError.httpError 500
          ("FAISS index directory " ++ joinPath "faiss_index" "s1" ++ " does not exist")) :=
  missing_index_failure_modes (fun _ => false) "s1" (fun _ => rfl)

/-- C8 counterexample: for an encrypted one-page PDF, the analysis path
(DocumentHandler.read_pdf) performs no encryption check and returns the
extracted page text rather than failing; and the comparison path rejects
it, but with the generic DocumentPortalException wrapper, not an
EncryptedDocumentError kind (no such class exists in the source). -/
theorem analyzer_encrypted_cex :
    analyzerReadPdf (Pdf.mk "secret.pdf" true ["confidential body"])
      = Except.ok "\n-- Page 1 --\nconfidential body"
    ∧ compareReadPdf (Pdf.mk "secret.pdf" true ["confidential body"])
      = Except.error (PortalError.documentPortal "Error reading PDF file") := by
  constructor
  · rfl
  · rfl

/-- C8 amended: for every encrypted document, the comparison path fails,
but by raising the repository's generic
DocumentPortalException("Error reading PDF file") (wrapping
ValueError("Encrypted PDF is not supported")) rather than an
EncryptedDocumentError taxonomy kind; the analysis path performs no
encryption check at all and returns whatever page text the extraction
library yields. -/
theorem encrypted_pdf_handling (d : Pdf) (h : d.encrypted = true) :
    compareReadPdf d
      = Except.error (PortalError.documentPortal "Error reading PDF file")
    ∧ analyzerReadPdf d
      = Except.ok (String.intercalate "\n"
          (d.pages.enum.map
            (fun p => "\n-- Page " ++ toString (p.1 + 1) ++ " --\n" ++ p.2))) := by
  constructor
  · simp [compareReadPdf, h]
  · rfl

/-- C8 amended witness on a concrete encrypted two-page document. -/
theorem encrypted_pdf_handling_w :
    compareReadPdf (Pdf.mk "locked.pdf" true ["p1", "p2"])
      = Except.error (PortalError.documentPortal "Error reading PDF file")
    ∧ analyzerReadPdf (Pdf.mk "locked.pdf" true ["p1", "p2"])
      = Except.ok (String.intercalate "\n"
          ((["p1", "p2"] : List String).enum.map
            (fun p => "\n-- Page " ++ toString (p.1 + 1) ++ " --\n" ++ p.2))) :=
  encrypted_pdf_handling (Pdf.mk "locked.pdf" true ["p1", "p2"]) rfl

/-- Strict lexicographic character-list order is asymmetric. -/
theorem charListLtb_asymm : ∀ a b : List Char,
    charListLtb a b = true → charListLtb b a = false := by
  intro a
  induction a with
  | nil =>
    intro b hb
    cases b with
    | nil => simpa [charListLtb] using hb
    | cons c cs => simp [charListLtb]
  | cons x xs ih =>
    intro b hb
    cases b with
    | nil => simpa [charListLtb] using hb
    | cons y ys =>
      simp only [charListLtb] at hb ⊢
      by_cases hxy : x < y
      · have hyx : ¬ y < x := Char.lt_asymm hxy
        simp [hxy, hyx]
      · by_cases hyx : y < x
        · simp [hxy, hyx] at hb
        · simp only [hxy, hyx, if_false] at hb
          simp [hxy, hyx, ih ys hb]

/-- Python's strict string order is asymmetric. -/
theorem strLtb_asymm (a b : String) (h : strLtb a b = true) :
    strLtb b a = false :=
  charListLtb_asymm a.data b.data h

/-- C5: comparison labeling.  For any two readable PDF files, whichever
order they arrive in from the source directory, combine_documents labels
the file whose name sorts first lexicographically as REFERENCE DOCUMENT
and the other as ACTUAL DOCUMENT, producing the identical combined text
for both arrival orders. -/
theorem comparison_reference_label (a b : Pdf)
    (hab : strLtb a.name b.name = true)
    (ha : isPdfFile a = true) (hb : isPdfFile b = true)
    (hea : a.encrypted = false) (heb : b.encrypted = false) :
    combine_documents [a, b] = Except.ok (referenceActualLayout a b)
    ∧ combine_documents [b, a] = Except.ok (referenceActualLayout a b) := by
  have hba : strLtb b.name a.name = false := strLtb_asymm a.name b.name hab
  constructor
  · simp only [combine_documents, List.filter, ha, hb, sortByName, insertByName,
      hba, if_false, List.length_cons, List.length_nil]
    norm_num
    simp only [combineParts, compareReadPdf, hea, heb, if_false,
      Bool.false_eq_true, referenceActualLayout]
    simp [String.intercalate, String.intercalate.go, String.append_assoc]
    rw [show ("\n\n\n===== ACTUAL DOCUMENT (" : String)
        = "\n\n\n" ++ "===== ACTUAL DOCUMENT (" from rfl]
    simp only [String.append_assoc]
  · simp only [combine_documents, List.filter, ha, hb, sortByName, insertByName,
      hab, if_true, List.length_cons, List.length_nil]
    norm_num
    simp only [combineParts, compareReadPdf, hea, heb, if_false,
      Bool.false_eq_true, referenceActualLayout]
    simp [String.intercalate, String.intercalate.go, String.append_assoc]
    rw [show ("\n\n\n===== ACTUAL DOCUMENT (" : String)
        = "\n\n\n" ++ "===== ACTUAL DOCUMENT (" from rfl]
    simp only [String.append_assoc]

/-- C5 witness: files named b.pdf and a.pdf - a.pdf is labeled REFERENCE
in both upload orders. -/
theorem comparison_reference_label_w :
    combine_documents [Pdf.mk "a.pdf" false ["alpha"], Pdf.mk "b.pdf" false ["beta"]]
      = Except.ok (referenceActualLayout (Pdf.mk "a.pdf" false ["alpha"])
          (Pdf.mk "b.pdf" false ["beta"]))
    ∧ combine_documents [Pdf.mk "b.pdf" false ["beta"], Pdf.mk "a.pdf" false ["alpha"]]
      = Except.ok (referenceActualLayout (Pdf.mk "a.pdf" false ["alpha"])
          (Pdf.mk "b.pdf" false ["beta"])) :=
  comparison_reference_label (Pdf.mk "a.pdf" false ["alpha"])
    (Pdf.mk "b.pdf" false ["beta"]) (by decide) (by decide) (by decide) rfl rfl

/-- Trimming the overlap from every chunk that splitFrom emits from
position start and concatenating yields exactly the text from position
start + chunkOverlap onward. -/
theorem splitFrom_trimmed_flatten (C O : Nat) (h : O < C) (text : List Char) :
    ∀ (n start : Nat), text.length - start ≤ n →
      ((splitFrom C O h text start).map (List.drop O)).flatten
        = text.drop (start + O) := by
  intro n
  induction n with
  | zero =>
    intro start hle
    have hend : text.length ≤ start := by omega
    unfold splitFrom
    rw [dif_neg (by omega)]
    simp only [List.map_cons, List.map_nil, List.flatten_cons, List.flatten_nil,
      List.append_nil]
    rw [List.drop_take, List.drop_drop]
    rw [List.drop_eq_nil_of_le (by omega)]
    simp
  | succ n ih =>
    intro start hle
    unfold splitFrom
    by_cases hlt : start + C < text.length
    · rw [dif_pos hlt]
      simp only [List.map_cons, List.flatten_cons]
      rw [ih (start + (C - O)) (by omega)]
      rw [List.drop_take, List.drop_drop]
      have he1 : start + (C - O) + O = start + C := by omega
      have hd : List.drop (C - O) (List.drop (start + O) text)
          = List.drop (start + C) text := by
        rw [List.drop_drop]
        congr 1
        omega
      rw [he1, ← hd, List.take_append_drop]
    · rw [dif_neg hlt]
      simp only [List.map_cons, List.map_nil, List.flatten_cons, List.flatten_nil,
        List.append_nil]
      rw [List.drop_take, List.drop_drop]
      apply List.take_of_length_le
      rw [List.length_drop]
      omega

/-- C9: for every text and every configuration with chunkOverlap strictly
below chunkSize, the chunks split produces reconstruct the original text
exactly when the chunkOverlap-character overlap is trimmed from each
successive chunk and the remainders are concatenated in order: no
characters are lost or duplicated. -/
theorem split_overlap_reconstructs (C O : Nat) (h : O < C) (text : List Char) :
    overlapTrimConcat O (split C O h text) = text := by
  rw [split]
  unfold splitFrom
  by_cases hlt : 0 + C < text.length
  · rw [dif_pos hlt]
    simp only [overlapTrimConcat]
    rw [splitFrom_trimmed_flatten C O h text text.length (0 + (C - O)) (by omega)]
    have he : 0 + (C - O) + O = C := by omega
    rw [he]
    simp [List.take_append_drop]
  · rw [dif_neg hlt]
    simp only [overlapTrimConcat, List.map_nil, List.flatten_nil, List.append_nil]
    rw [List.drop_zero]
    apply List.take_of_length_le
    omega

/-- C9 witness: chunk_size 4, chunk_overlap 1 over a ten-character text. -/
theorem split_overlap_reconstructs_w :
    overlapTrimConcat 1 (split 4 1 (by decide) ("abcdefghij".data))
      = "abcdefghij".data :=
  split_overlap_reconstructs 4 1 (by decide) ("abcdefghij".data)

/-- Characters with a valid scalar value below the surrogate range
round-trip through Char.ofNat. -/
theorem toNat_ofNat_valid (m : Nat) (h : m < 55296) : (Char.ofNat m).toNat = m := by
  have hv : m.isValidChar := Or.inl h
  simp [Char.ofNat, hv, Char.ofNatAux, Char.toNat, UInt32.toNat, BitVec.toNat_ofNatLt]

/-- Lowercasing a character of the sanitizer's safe class never yields a
path separator. -/
theorem sanitize_char_ne_slash (c : Char) (h : isSafeChar c = true) :
    Char.toLower c ≠ '/' := by
  unfold Char.toLower
  by_cases hc : c.toNat ≥ 65 ∧ c.toNat ≤ 90
  · rw [if_pos hc]
    intro heq
    have h2 := congrArg Char.toNat heq
    rw [toNat_ofNat_valid (c.toNat + 32) (by omega)] at h2
    have h3 : ('/' : Char).toNat = 47 := by decide
    rw [h3] at h2
    omega
  · rw [if_neg hc]
    intro heq
    subst heq
    exact absurd h (by decide)

/-- Hex digits are never a path separator. -/
theorem hexDigit_ne_slash (c : Char) (h : isHexDigit c = true) : c ≠ '/' := by
  intro heq
  subst heq
  exact absurd h (by decide)

/-- C10: save_uploaded_files writes only files whose (lowercased) extension
is in the supported set - every returned path originates from such a file,
so unsupported uploads are skipped and never produce a path - and every
saved path is the target directory joined with a filename built as the
sanitized stem (every character outside the [a-zA-Z0-9_-] class replaced
by an underscore, then lowercased) + "_" + the 8-hex random suffix + the
lowercased original extension; that filename is nonempty and contains no
path separator, so every returned path lies directly inside the target
directory regardless of the uploaded filename. -/
theorem save_uploaded_files_safe (dir : String) (files : List (String × String))
    (hhex : ∀ p ∈ files, p.2.data.all isHexDigit = true) :
    ∀ q ∈ save_uploaded_files dir files,
      ∃ p ∈ files,
        supportedExtensions.contains (lowerStr (pathSuffix p.1)) = true
        ∧ q = joinPath dir (sanitizeStem (pathStem p.1) ++ "_" ++ p.2
              ++ lowerStr (pathSuffix p.1))
        ∧ (∀ c ∈ (sanitizeStem (pathStem p.1) ++ "_" ++ p.2
              ++ lowerStr (pathSuffix p.1)).data, c ≠ '/')
        ∧ (sanitizeStem (pathStem p.1) ++ "_" ++ p.2
              ++ lowerStr (pathSuffix p.1)) ≠ "" := by
  intro q hq
  rw [save_uploaded_files, List.mem_filterMap] at hq
  obtain ⟨p, hp, hsome⟩ := hq
  refine ⟨p, hp, ?_⟩
  by_cases hext : supportedExtensions.contains (lowerStr (pathSuffix p.1)) = true
  · have hq2 : q = joinPath dir (sanitizeStem (pathStem p.1) ++ "_" ++ p.2
        ++ lowerStr (pathSuffix p.1)) := by
      rw [savedFileName] at hsome
      simp only [hext, if_true, Option.map] at hsome
      exact (Option.some.inj hsome).symm
    refine ⟨hext, hq2, ?_, ?_⟩
    · intro c hc
      rw [String.data_append, String.data_append, String.data_append] at hc
      rcases List.mem_append.mp hc with hc1 | hcx
      · rcases List.mem_append.mp hc1 with hc2 | hcu
        · rcases List.mem_append.mp hc2 with hcs | hcu2
          · rcases List.mem_map.mp hcs with ⟨a, -, ha⟩
            by_cases hsafe : isSafeChar a = true
            · rw [if_pos hsafe] at ha
              rw [← ha]
              exact sanitize_char_ne_slash a hsafe
            · rw [if_neg hsafe] at ha
              rw [← ha]
              decide
          · have : c = '_' := by simpa using hcu2
            subst this
            decide
        · have hall := (List.all_eq_true.mp (hhex p hp)) c hcu
          exact hexDigit_ne_slash c hall
      · have h3 : lowerStr (pathSuffix p.1) = ".pdf"
            ∨ lowerStr (pathSuffix p.1) = ".docx"
            ∨ lowerStr (pathSuffix p.1) = ".txt" := by
          have hm : lowerStr (pathSuffix p.1) ∈ supportedExtensions := by
            simpa using hext
          simpa [supportedExtensions] using hm
        rcases h3 with h3 | h3 | h3 <;> rw [h3] at hcx
        · exact (by decide : ∀ x ∈ (".pdf" : String).data, x ≠ '/') c hcx
        · exact (by decide : ∀ x ∈ (".docx" : String).data, x ≠ '/') c hcx
        · exact (by decide : ∀ x ∈ (".txt" : String).data, x ≠ '/') c hcx
    · intro hemp
      have hd := congrArg String.data hemp
      rw [String.data_append, String.data_append, String.data_append] at hd
      have hu : ("_" : String).data = ['_'] := rfl
      rw [hu] at hd
      simp at hd
  · rw [savedFileName] at hsome
    simp only [hext] at hsome
    simp at hsome

/-- C10 witness: three uploads - a mixed-case PDF with unsafe characters,
a traversal-shaped txt name, and an unsupported .exe - on a concrete
target directory. -/
theorem save_uploaded_files_safe_w :
    (∀ p ∈ ([("My Report!.PDF", "abc12345"), ("../../etc/passwd.txt", "deadbeef"),
        ("hack.exe", "12345678")] : List (String × String)),
      p.2.data.all isHexDigit = true)
    ∧ ∀ q ∈ save_uploaded_files "data/document_chat"
        [("My Report!.PDF", "abc12345"), ("../../etc/passwd.txt", "deadbeef"),
         ("hack.exe", "12345678")],
      ∃ p ∈ ([("My Report!.PDF", "abc12345"), ("../../etc/passwd.txt", "deadbeef"),
          ("hack.exe", "12345678")] : List (String × String)),
        supportedExtensions.contains (lowerStr (pathSuffix p.1)) = true
        ∧ q = joinPath "data/document_chat" (sanitizeStem (pathStem p.1) ++ "_" ++ p.2
              ++ lowerStr (pathSuffix p.1))
        ∧ (∀ c ∈ (sanitizeStem (pathStem p.1) ++ "_" ++ p.2
              ++ lowerStr (pathSuffix p.1)).data, c ≠ '/')
        ∧ (sanitizeStem (pathStem p.1) ++ "_" ++ p.2
              ++ lowerStr (pathSuffix p.1)) ≠ "" :=
  ⟨by decide,
   save_uploaded_files_safe "data/document_chat"
     [("My Report!.PDF", "abc12345"), ("../../etc/passwd.txt", "deadbeef"),
      ("hack.exe", "12345678")] (by decide)⟩
